import Mathlib

/-
Shallow embedding of the aegis-v2-api job lifecycle core:
the producer endpoint run_pipeline (src/app/main.py), the worker step
process_pipeline_job (src/worker.py), and the two Postgres tables
aegis.manifest_v2_index and aegis.manifest_v2_modules that they mutate.

Database rows are modelled as Lean structures, the two tables as lists,
and each SQL statement of the source as a pure function on the table
state.  The try/except structure of process_pipeline_job is embedded by
a Fault parameter naming the statement (if any) at which the body raises;
the except handler then runs the UPDATE to failed, exactly as in the
source.
-/

namespace Aegis

/-- Run status values stored in the status column of aegis.manifest_v2_index. -/
inductive Status
  | queued
  | processing
  | completed
  | failed
deriving DecidableEq, Repr

/-- One row of aegis.manifest_v2_index.  The producer INSERT sets tenant_id,
store_id, run_id, status and created_at; deploy_ready and updated_at start
as SQL NULL, modelled as none. -/
structure RunRow where
  tenant_id : String
  store_id : String
  status : Status
  deploy_ready : Option Bool
  created_at : Nat
  updated_at : Option Nat
deriving DecidableEq, Repr

/-- Structured content of the module_data JSON column, one constructor per
module payload shape built by the worker. -/
inductive ModuleData
  | audit (checks_passed : Nat) (checks_failed : Nat)
  | decision (deploy_ready : Bool) (reasons : List String)
  | deployment (ready_to_deploy_path : String)
deriving DecidableEq, Repr

/-- One row of aegis.manifest_v2_modules. -/
structure ModuleRow where
  run_id : String
  module_name : String
  module_data : ModuleData
deriving DecidableEq, Repr

/-- The persistent database state: the run index table and the modules table. -/
structure DB where
  index : List (String × RunRow)
  modules : List ModuleRow
deriving DecidableEq, Repr

/-- SELECT of the first index row with the given run_id (run ids are unique in
practice, so first match is the row). -/
def lookupRun : List (String × RunRow) → String → Option RunRow
  | [], _ => none
  | p :: t, r => if p.1 = r then some p.2 else lookupRun t r

/-- Read a run row from the index by run id. -/
def getRun (db : DB) (run_id : String) : Option RunRow :=
  lookupRun db.index run_id

/-- UPDATE aegis.manifest_v2_index SET status = st, updated_at = NOW()
WHERE run_id = r.  Matches zero rows (and is a no-op) when r is absent. -/
def updateStatus (db : DB) (run_id : String) (st : Status) (now : Nat) : DB :=
  { db with
    index := db.index.map fun p =>
      if p.1 = run_id then (p.1, { p.2 with status := st, updated_at := some now }) else p }

/-- UPDATE aegis.manifest_v2_index SET status = completed, deploy_ready = dr,
updated_at = NOW() WHERE run_id = r. -/
def updateCompleted (db : DB) (run_id : String) (dr : Bool) (now : Nat) : DB :=
  { db with
    index := db.index.map fun p =>
      if p.1 = run_id then
        (p.1, { p.2 with status := Status.completed, deploy_ready := some dr,
                         updated_at := some now })
      else p }

/-- INSERT INTO aegis.manifest_v2_modules (run_id, module_name, module_data). -/
def insertModule (db : DB) (run_id name : String) (data : ModuleData) : DB :=
  { db with modules := db.modules ++ [⟨run_id, name, data⟩] }

/-- SELECT module_name, module_data FROM aegis.manifest_v2_modules
WHERE run_id = r, in insertion order. -/
def modulesFor : List ModuleRow → String → List (String × ModuleData)
  | [], _ => []
  | m :: t, r =>
    if m.run_id = r then (m.module_name, m.module_data) :: modulesFor t r
    else modulesFor t r

/-- All modules stored for a run, as name-data pairs. -/
def listModules (db : DB) (run_id : String) : List (String × ModuleData) :=
  modulesFor db.modules run_id

/-- The queue payload pushed by run_pipeline and read by the worker. -/
structure JobMessage where
  run_id : String
  tenant_id : String
  store_id : String
  product_data : String
deriving DecidableEq, Repr

/-- The artifact location string built in phase 5 of the worker. -/
def deployPath (tenant_id store_id run_id : String) : String :=
  "s3://aegis/" ++ tenant_id ++ "/" ++ store_id ++ "/" ++ run_id

/-- Modelled from the spec: the result of invoking one configured hard gate.
The source hardcodes deploy_ready = True and reasons = [] with a comment that
the real gate checks (TEXT_SIMILARITY, AI_LIKENESS, ...) are elided, so the
gate collaborators are modelled from the spec as functions returning
pass/fail plus a reason. -/
structure Gate where
  passed : Bool
  reason : String
deriving DecidableEq, Repr

/-- Modelled from the spec: deploy_ready is forced false when any configured
gate fails; with zero gates it defaults to true. -/
def gatesDeployReady (gates : List Gate) : Bool :=
  gates.all (fun g => g.passed)

/-- Modelled from the spec: the recorded reasons of the failing gates. -/
def gatesReasons (gates : List Gate) : List String :=
  (gates.filter (fun g => !g.passed)).map (fun g => g.reason)

/-- The point, if any, at which the body of process_pipeline_job raises.
Each constructor names one statement of the try block of the source; a fault
there means the statement raises and has no effect, and control passes to the
except handler.  Fault.ok is the exception-free execution. -/
inductive Fault
  | ok
  | transitionProcessing
  | prefetch
  | gateInvocation
  | assets
  | softChecks
  | insertAudit
  | insertDecision
  | insertDeployment
  | updateCompletedStep
deriving DecidableEq, Repr

/-- The worker step process_pipeline_job of src/worker.py: unconditionally
UPDATE status to processing, run phases 1-4 (prefetch, hard gates, assets,
soft checks), then phase 5 inserts the audit, decision and deployment modules
and UPDATEs the index row to completed with the computed deploy_ready.  On
any raise, the except handler UPDATEs status to failed. -/
def process_pipeline_job (gates : List Gate) (fault : Fault) (db : DB)
    (job : JobMessage) (now : Nat) : DB :=
  let deploy_ready := gatesDeployReady gates
  let reasons := gatesReasons gates
  let db1 := updateStatus db job.run_id Status.processing now
  let db2 := insertModule db1 job.run_id "audit" (ModuleData.audit 12 0)
  let db3 := insertModule db2 job.run_id "decision" (ModuleData.decision deploy_ready reasons)
  let db4 := insertModule db3 job.run_id "deployment"
    (ModuleData.deployment (deployPath job.tenant_id job.store_id job.run_id))
  match fault with
  | Fault.transitionProcessing => updateStatus db job.run_id Status.failed now
  | Fault.prefetch => updateStatus db1 job.run_id Status.failed now
  | Fault.gateInvocation => updateStatus db1 job.run_id Status.failed now
  | Fault.assets => updateStatus db1 job.run_id Status.failed now
  | Fault.softChecks => updateStatus db1 job.run_id Status.failed now
  | Fault.insertAudit => updateStatus db1 job.run_id Status.failed now
  | Fault.insertDecision => updateStatus db2 job.run_id Status.failed now
  | Fault.insertDeployment => updateStatus db3 job.run_id Status.failed now
  | Fault.updateCompletedStep => updateStatus db4 job.run_id Status.failed now
  | Fault.ok => updateCompleted db4 job.run_id deploy_ready now

/-- The request body of POST /api/v2/pipeline/run. -/
structure PipelineRequest where
  tenant_id : String
  store_id : String
  product_data : String
deriving DecidableEq, Repr

/-- Combined state seen by the producer: the database plus the Redis list
aegis:pipeline:queue (head = most recently pushed, LPUSH side). -/
structure AppState where
  db : DB
  queue : List JobMessage
deriving DecidableEq, Repr

/-- INSERT INTO aegis.manifest_v2_index (tenant_id, store_id, run_id, status,
created_at) VALUES (.., queued, NOW()). -/
def insertIndexRow (db : DB) (tenant_id store_id run_id : String) (now : Nat) : DB :=
  { db with
    index := db.index ++
      [(run_id, ⟨tenant_id, store_id, Status.queued, none, now, none⟩)] }

/-- LPUSH aegis:pipeline:queue. -/
def lpush (s : AppState) (m : JobMessage) : AppState :=
  { s with queue := m :: s.queue }

/-- BRPOP aegis:pipeline:queue: pop from the tail, or time out when empty. -/
def brpop (s : AppState) : Option (JobMessage × AppState) :=
  match s.queue.getLast? with
  | none => none
  | some m => some (m, { s with queue := s.queue.dropLast })

/-- The endpoint run_pipeline of src/app/main.py: insert the queued index row,
then, only when a Redis client is configured, LPUSH the job message; return
the run_id and the literal status queued. -/
def run_pipeline (redis_configured : Bool) (s : AppState) (req : PipelineRequest)
    (run_id : String) (now : Nat) : AppState × (String × String) :=
  let s1 := { s with db := insertIndexRow s.db req.tenant_id req.store_id run_id now }
  let s2 :=
    if redis_configured then
      lpush s1 ⟨run_id, req.tenant_id, req.store_id, req.product_data⟩
    else s1
  (s2, (run_id, "queued"))

/-- The intermediate states of one run_pipeline call, in execution order:
after the index INSERT commits, then (when Redis is configured) after the
LPUSH. -/
def run_pipeline_trace (redis_configured : Bool) (s : AppState) (req : PipelineRequest)
    (run_id : String) (now : Nat) : List AppState :=
  let s1 := { s with db := insertIndexRow s.db req.tenant_id req.store_id run_id now }
  if redis_configured then
    [s1, lpush s1 ⟨run_id, req.tenant_id, req.store_id, req.product_data⟩]
  else [s1]

/-- Every message sitting in the queue names a run id present in the index. -/
def queueCovered (s : AppState) : Bool :=
  s.queue.all (fun m => (lookupRun s.db.index m.run_id).isSome)

/-- The status transition to processing performed by the worker, as a
standalone operation (the UPDATE at the top of process_pipeline_job). -/
def transitionToProcessing (db : DB) (run_id : String) (now : Nat) : DB :=
  updateStatus db run_id Status.processing now

end Aegis

namespace Aegis

theorem lookupRun_map_update (l : List (String × RunRow)) (r : String)
    (f : RunRow → RunRow) :
    lookupRun (l.map fun p => if p.1 = r then (p.1, f p.2) else p) r
      = (lookupRun l r).map f := by
  induction l with
  | nil => rfl
  | cons a t ih =>
    by_cases h : a.1 = r
    · simp [lookupRun, h]
    · simp [lookupRun, h, ih]

theorem getRun_updateStatus (db : DB) (r : String) (st : Status) (now : Nat) :
    getRun (updateStatus db r st now) r
      = (getRun db r).map fun row => { row with status := st, updated_at := some now } := by
  simpa [getRun, updateStatus] using
    lookupRun_map_update db.index r
      (fun row => { row with status := st, updated_at := some now })

theorem getRun_updateCompleted (db : DB) (r : String) (dr : Bool) (now : Nat) :
    getRun (updateCompleted db r dr now) r
      = (getRun db r).map fun row =>
          { row with status := Status.completed, deploy_ready := some dr,
                     updated_at := some now } := by
  simpa [getRun, updateCompleted] using
    lookupRun_map_update db.index r
      (fun row => { row with status := Status.completed, deploy_ready := some dr,
                             updated_at := some now })

theorem getRun_insertModule (db : DB) (rid n : String) (d : ModuleData) (r : String) :
    getRun (insertModule db rid n d) r = getRun db r := rfl

theorem listModules_updateStatus (db : DB) (rid : String) (st : Status) (now : Nat)
    (r : String) :
    listModules (updateStatus db rid st now) r = listModules db r := rfl

theorem listModules_updateCompleted (db : DB) (rid : String) (dr : Bool) (now : Nat)
    (r : String) :
    listModules (updateCompleted db rid dr now) r = listModules db r := rfl

theorem modulesFor_append_self (l : List ModuleRow) (r n : String) (d : ModuleData) :
    modulesFor (l ++ [⟨r, n, d⟩]) r = modulesFor l r ++ [(n, d)] := by
  induction l with
  | nil => simp [modulesFor]
  | cons m t ih =>
    by_cases h : m.run_id = r
    · simp [modulesFor, h, ih]
    · simp [modulesFor, h, ih]

theorem listModules_insertModule_self (db : DB) (r n : String) (d : ModuleData) :
    listModules (insertModule db r n d) r = listModules db r ++ [(n, d)] := by
  simpa [listModules, insertModule] using modulesFor_append_self db.modules r n d

theorem map_update_of_absent (l : List (String × RunRow)) (r : String)
    (f : RunRow → RunRow) (h : lookupRun l r = none) :
    (l.map fun p => if p.1 = r then (p.1, f p.2) else p) = l := by
  induction l with
  | nil => rfl
  | cons a t ih =>
    by_cases h' : a.1 = r
    · simp [lookupRun, h'] at h
    · simp [lookupRun, h'] at h
      simp [h', ih h]

theorem updateStatus_absent (db : DB) (r : String) (st : Status) (now : Nat)
    (h : getRun db r = none) : updateStatus db r st now = db := by
  simp only [updateStatus]
  rw [map_update_of_absent db.index r
    (fun row => { row with status := st, updated_at := some now }) h]

theorem updateCompleted_absent (db : DB) (r : String) (dr : Bool) (now : Nat)
    (h : getRun db r = none) : updateCompleted db r dr now = db := by
  simp only [updateCompleted]
  rw [map_update_of_absent db.index r
    (fun row => { row with status := Status.completed, deploy_ready := some dr,
                           updated_at := some now }) h]

theorem lookupRun_append_of_some (l l' : List (String × RunRow)) (r : String)
    (row : RunRow) (h : lookupRun l r = some row) :
    lookupRun (l ++ l') r = some row := by
  induction l with
  | nil => simp [lookupRun] at h
  | cons a t ih =>
    by_cases h' : a.1 = r
    · simp [lookupRun, h'] at h ⊢
      exact h
    · simp [lookupRun, h'] at h ⊢
      exact ih h

theorem lookupRun_append_self_of_none (l : List (String × RunRow)) (r : String)
    (row : RunRow) (h : lookupRun l r = none) :
    lookupRun (l ++ [(r, row)]) r = some row := by
  induction l with
  | nil => simp [lookupRun]
  | cons a t ih =>
    by_cases h' : a.1 = r
    · simp [lookupRun, h'] at h
    · simp [lookupRun, h'] at h ⊢
      exact ih h

theorem isSome_lookupRun_append_self (l : List (String × RunRow)) (r : String)
    (row : RunRow) : (lookupRun (l ++ [(r, row)]) r).isSome = true := by
  cases h : lookupRun l r with
  | none => simp [lookupRun_append_self_of_none l r row h]
  | some row' => simp [lookupRun_append_of_some l [(r, row)] r row' h]

theorem map_update_map_update (l : List (String × RunRow)) (r : String)
    (f g : RunRow → RunRow) :
    ((l.map fun p => if p.1 = r then (p.1, f p.2) else p).map
        fun p => if p.1 = r then (p.1, g p.2) else p)
      = l.map fun p => if p.1 = r then (p.1, g (f p.2)) else p := by
  induction l with
  | nil => rfl
  | cons a t ih =>
    by_cases h : a.1 = r
    · simp [h, ih]
    · simp [h, ih]

end Aegis

namespace Aegis

theorem getRun_process_of_absent (gates : List Gate) (fault : Fault) (db : DB)
    (job : JobMessage) (now : Nat) (h : getRun db job.run_id = none) :
    getRun (process_pipeline_job gates fault db job now) job.run_id = none := by
  cases fault <;>
    simp [process_pipeline_job, getRun_updateStatus, getRun_updateCompleted,
      getRun_insertModule, h]

theorem listModules_process_ok (gates : List Gate) (db : DB) (job : JobMessage)
    (now : Nat) :
    listModules (process_pipeline_job gates Fault.ok db job now) job.run_id
      = listModules db job.run_id ++
        [("audit", ModuleData.audit 12 0),
         ("decision", ModuleData.decision (gatesDeployReady gates) (gatesReasons gates)),
         ("deployment",
           ModuleData.deployment (deployPath job.tenant_id job.store_id job.run_id))] := by
  simp [process_pipeline_job, listModules_updateCompleted, listModules_insertModule_self,
    listModules_updateStatus]

theorem gatesDeployReady_eq_false_of_mem (gates : List Gate) (R : String)
    (hg : (⟨false, R⟩ : Gate) ∈ gates) : gatesDeployReady gates = false := by
  have : ¬ gates.all (fun g => g.passed) = true := by
    rw [List.all_eq_true]
    intro hall
    have := hall _ hg
    simp at this
  simpa [gatesDeployReady] using this

theorem mem_gatesReasons (gates : List Gate) (R : String)
    (hg : (⟨false, R⟩ : Gate) ∈ gates) : R ∈ gatesReasons gates := by
  refine List.mem_map.mpr ⟨⟨false, R⟩, List.mem_filter.mpr ⟨hg, rfl⟩, rfl⟩

theorem isSome_lookupRun_append_left (l l' : List (String × RunRow)) (r : String)
    (h : (lookupRun l r).isSome = true) : (lookupRun (l ++ l') r).isSome = true := by
  cases hh : lookupRun l r with
  | none => rw [hh] at h; simp at h
  | some row => simp [lookupRun_append_of_some l l' r row hh]

theorem mem_of_getLast?_eq_some {α : Type _} {l : List α} {a : α}
    (h : l.getLast? = some a) : a ∈ l := by
  obtain ⟨hne, heq⟩ := List.mem_getLast?_eq_getLast (Option.mem_def.mpr h)
  rw [heq]
  exact List.getLast_mem hne

/-- Claim C1, amended.  For a run with no pre-existing modules: whenever the
worker step leaves the run with status completed, its module names are exactly
audit, decision, deployment; whenever it leaves the run with status failed,
its module names are an initial segment of that list, which is nonempty when
the execution raises partway through the module-writing phase (the inserts are
not wrapped in a transaction, so modules written before the raising statement
persist). -/
theorem C1_completed_full_failed_partial (gates : List Gate) (fault : Fault) (db : DB)
    (job : JobMessage) (now : Nat)
    (hm : listModules db job.run_id = []) :
    ((getRun (process_pipeline_job gates fault db job now) job.run_id).map RunRow.status
        = some Status.completed →
      (listModules (process_pipeline_job gates fault db job now) job.run_id).map Prod.fst
        = ["audit", "decision", "deployment"]) ∧
    ((getRun (process_pipeline_job gates fault db job now) job.run_id).map RunRow.status
        = some Status.failed →
      ∃ k, (listModules (process_pipeline_job gates fault db job now) job.run_id).map Prod.fst
        = List.take k ["audit", "decision", "deployment"]) := by
  cases hrow : getRun db job.run_id with
  | none =>
    rw [getRun_process_of_absent gates fault db job now hrow]
    constructor <;> intro hc <;> simp at hc
  | some row =>
    cases fault with
    | ok =>
      constructor
      · intro _
        rw [listModules_process_ok]
        simp [hm]
      · intro hfail
        simp [process_pipeline_job, getRun_updateCompleted, getRun_insertModule,
          getRun_updateStatus, hrow] at hfail
    | transitionProcessing =>
      constructor
      · intro hcomp
        simp [process_pipeline_job, getRun_updateStatus, hrow] at hcomp
      · intro _
        exact ⟨0, by simp [process_pipeline_job, listModules_updateStatus, hm]⟩
    | prefetch =>
      constructor
      · intro hcomp
        simp [process_pipeline_job, getRun_updateStatus, hrow] at hcomp
      · intro _
        exact ⟨0, by simp [process_pipeline_job, listModules_updateStatus, hm]⟩
    | gateInvocation =>
      constructor
      · intro hcomp
        simp [process_pipeline_job, getRun_updateStatus, hrow] at hcomp
      · intro _
        exact ⟨0, by simp [process_pipeline_job, listModules_updateStatus, hm]⟩
    | assets =>
      constructor
      · intro hcomp
        simp [process_pipeline_job, getRun_updateStatus, hrow] at hcomp
      · intro _
        exact ⟨0, by simp [process_pipeline_job, listModules_updateStatus, hm]⟩
    | softChecks =>
      constructor
      · intro hcomp
        simp [process_pipeline_job, getRun_updateStatus, hrow] at hcomp
      · intro _
        exact ⟨0, by simp [process_pipeline_job, listModules_updateStatus, hm]⟩
    | insertAudit =>
      constructor
      · intro hcomp
        simp [process_pipeline_job, getRun_updateStatus, hrow] at hcomp
      · intro _
        exact ⟨0, by simp [process_pipeline_job, listModules_updateStatus, hm]⟩
    | insertDecision =>
      constructor
      · intro hcomp
        simp [process_pipeline_job, getRun_updateStatus, getRun_insertModule, hrow] at hcomp
      · intro _
        refine ⟨1, ?_⟩
        simp [process_pipeline_job, listModules_updateStatus,
          listModules_insertModule_self, hm]
    | insertDeployment =>
      constructor
      · intro hcomp
        simp [process_pipeline_job, getRun_updateStatus, getRun_insertModule, hrow] at hcomp
      · intro _
        refine ⟨2, ?_⟩
        simp [process_pipeline_job, listModules_updateStatus,
          listModules_insertModule_self, hm]
    | updateCompletedStep =>
      constructor
      · intro hcomp
        simp [process_pipeline_job, getRun_updateStatus, getRun_insertModule, hrow] at hcomp
      · intro _
        refine ⟨3, ?_⟩
        simp [process_pipeline_job, listModules_updateStatus,
          listModules_insertModule_self, hm]

/-- Claim C1, counterexample to the claim as stated: a queued run whose
execution raises at the decision-module INSERT ends with status failed yet a
nonempty module list (the audit module was already written). -/
theorem C1_counterexample :
    (getRun (process_pipeline_job [] Fault.insertDecision
        ⟨[("r2", ⟨"t1", "s1", Status.queued, none, 0, none⟩)], []⟩
        ⟨"r2", "t1", "s1", "pd"⟩ 1) "r2").map RunRow.status = some Status.failed ∧
    listModules (process_pipeline_job [] Fault.insertDecision
        ⟨[("r2", ⟨"t1", "s1", Status.queued, none, 0, none⟩)], []⟩
        ⟨"r2", "t1", "s1", "pd"⟩ 1) "r2" ≠ [] := by decide

/-- Witness instantiating C1_completed_full_failed_partial at a concrete run
and fault. -/
theorem C1_witness :
    listModules ⟨[("r1", ⟨"t1", "s1", Status.queued, none, 0, none⟩)], []⟩ "r1" = [] ∧
    (((getRun (process_pipeline_job [] Fault.insertDecision
            ⟨[("r1", ⟨"t1", "s1", Status.queued, none, 0, none⟩)], []⟩
            ⟨"r1", "t1", "s1", "pd"⟩ 1) "r1").map RunRow.status = some Status.completed →
        (listModules (process_pipeline_job [] Fault.insertDecision
            ⟨[("r1", ⟨"t1", "s1", Status.queued, none, 0, none⟩)], []⟩
            ⟨"r1", "t1", "s1", "pd"⟩ 1) "r1").map Prod.fst
          = ["audit", "decision", "deployment"]) ∧
      ((getRun (process_pipeline_job [] Fault.insertDecision
            ⟨[("r1", ⟨"t1", "s1", Status.queued, none, 0, none⟩)], []⟩
            ⟨"r1", "t1", "s1", "pd"⟩ 1) "r1").map RunRow.status = some Status.failed →
        ∃ k, (listModules (process_pipeline_job [] Fault.insertDecision
            ⟨[("r1", ⟨"t1", "s1", Status.queued, none, 0, none⟩)], []⟩
            ⟨"r1", "t1", "s1", "pd"⟩ 1) "r1").map Prod.fst
          = List.take k ["audit", "decision", "deployment"])) :=
  ⟨by decide,
   C1_completed_full_failed_partial [] Fault.insertDecision
     ⟨[("r1", ⟨"t1", "s1", Status.queued, none, 0, none⟩)], []⟩
     ⟨"r1", "t1", "s1", "pd"⟩ 1 (by decide)⟩

/-- Claim C2, amended.  The status transitions of the worker step are
unguarded: for every run present in the index, whatever its current status
(terminal ones included), one worker step drives it to completed when nothing
raises, and to failed when anything raises.  No status is terminal. -/
theorem C2_step_status_unguarded (gates : List Gate) (fault : Fault) (db : DB)
    (job : JobMessage) (now : Nat) (row : RunRow)
    (h : getRun db job.run_id = some row) :
    (getRun (process_pipeline_job gates fault db job now) job.run_id).map RunRow.status
      = some (if fault = Fault.ok then Status.completed else Status.failed) := by
  cases fault <;>
    simp [process_pipeline_job, getRun_updateStatus, getRun_updateCompleted,
      getRun_insertModule, h]

/-- Claim C2, counterexample to the claim as stated: a run whose status is the
terminal failed, redelivered as a job message, is transitioned by the worker
step to completed. -/
theorem C2_counterexample :
    (getRun (process_pipeline_job [] Fault.ok
        ⟨[("r1", ⟨"t1", "s1", Status.failed, none, 0, none⟩)], []⟩
        ⟨"r1", "t1", "s1", "pd"⟩ 1) "r1").map RunRow.status = some Status.completed := by
  decide

/-- Witness instantiating C2_step_status_unguarded at a run already in the
failed status. -/
theorem C2_witness :
    getRun (⟨[("r1", ⟨"t1", "s1", Status.failed, none, 0, none⟩)], []⟩ : DB) "r1"
      = some ⟨"t1", "s1", Status.failed, none, 0, none⟩ ∧
    (getRun (process_pipeline_job [] Fault.ok
        ⟨[("r1", ⟨"t1", "s1", Status.failed, none, 0, none⟩)], []⟩
        ⟨"r1", "t1", "s1", "pd"⟩ 1) "r1").map RunRow.status
      = some (if Fault.ok = Fault.ok then Status.completed else Status.failed) :=
  ⟨by decide,
   C2_step_status_unguarded [] Fault.ok
     ⟨[("r1", ⟨"t1", "s1", Status.failed, none, 0, none⟩)], []⟩
     ⟨"r1", "t1", "s1", "pd"⟩ 1 ⟨"t1", "s1", Status.failed, none, 0, none⟩ (by decide)⟩

end Aegis

namespace Aegis

/-- Claim C3.  For every run processed with at least one configured hard gate
that returns fail with reason R, the exception-free step still completes the
run, stores deploy_ready false, and the decision module records a reason list
containing R.  Gate evaluation is modelled from the spec, since the source
elides it. -/
theorem C3_gate_fail_still_completes (gates : List Gate) (R : String) (db : DB)
    (job : JobMessage) (now : Nat) (row : RunRow)
    (hg : (⟨false, R⟩ : Gate) ∈ gates)
    (h : getRun db job.run_id = some row) :
    (getRun (process_pipeline_job gates Fault.ok db job now) job.run_id).map RunRow.status
      = some Status.completed ∧
    (getRun (process_pipeline_job gates Fault.ok db job now) job.run_id).map
        RunRow.deploy_ready = some (some false) ∧
    ("decision", ModuleData.decision false (gatesReasons gates))
      ∈ listModules (process_pipeline_job gates Fault.ok db job now) job.run_id ∧
    R ∈ gatesReasons gates := by
  have hdr := gatesDeployReady_eq_false_of_mem gates R hg
  refine ⟨?_, ?_, ?_, mem_gatesReasons gates R hg⟩
  · simp [process_pipeline_job, getRun_updateCompleted, getRun_insertModule,
      getRun_updateStatus, h]
  · simp [process_pipeline_job, getRun_updateCompleted, getRun_insertModule,
      getRun_updateStatus, h, hdr]
  · rw [listModules_process_ok, hdr]
    simp

/-- Witness instantiating C3_gate_fail_still_completes with one failing gate
carrying the reason R. -/
theorem C3_witness :
    ((⟨false, "R"⟩ : Gate) ∈ [(⟨false, "R"⟩ : Gate)] ∧
      getRun (⟨[("r1", ⟨"t1", "s1", Status.queued, none, 0, none⟩)], []⟩ : DB) "r1"
        = some ⟨"t1", "s1", Status.queued, none, 0, none⟩) ∧
    ((getRun (process_pipeline_job [⟨false, "R"⟩] Fault.ok
          ⟨[("r1", ⟨"t1", "s1", Status.queued, none, 0, none⟩)], []⟩
          ⟨"r1", "t1", "s1", "pd"⟩ 1) "r1").map RunRow.status = some Status.completed ∧
      (getRun (process_pipeline_job [⟨false, "R"⟩] Fault.ok
          ⟨[("r1", ⟨"t1", "s1", Status.queued, none, 0, none⟩)], []⟩
          ⟨"r1", "t1", "s1", "pd"⟩ 1) "r1").map RunRow.deploy_ready = some (some false) ∧
      ("decision", ModuleData.decision false (gatesReasons [⟨false, "R"⟩]))
        ∈ listModules (process_pipeline_job [⟨false, "R"⟩] Fault.ok
            ⟨[("r1", ⟨"t1", "s1", Status.queued, none, 0, none⟩)], []⟩
            ⟨"r1", "t1", "s1", "pd"⟩ 1) "r1" ∧
      "R" ∈ gatesReasons [⟨false, "R"⟩]) :=
  ⟨⟨by decide, by decide⟩,
   C3_gate_fail_still_completes [⟨false, "R"⟩] "R"
     ⟨[("r1", ⟨"t1", "s1", Status.queued, none, 0, none⟩)], []⟩
     ⟨"r1", "t1", "s1", "pd"⟩ 1 ⟨"t1", "s1", Status.queued, none, 0, none⟩
     (by decide) (by decide)⟩

/-- Claim C4.  For every valid call to the enqueue endpoint, starting from a
state where every queued message names an indexed run, every intermediate
state of the call (after the index INSERT, and after the LPUSH) again has
every queued message naming an indexed run, and any BRPOP from such a state
yields a message whose run id is present in the index. -/
theorem C4_index_row_before_message (s : AppState) (req : PipelineRequest)
    (run_id : String) (now : Nat)
    (h : queueCovered s = true) :
    ∀ s' ∈ run_pipeline_trace true s req run_id now,
      queueCovered s' = true ∧
      ∀ m s'', brpop s' = some (m, s'') →
        (lookupRun s'.db.index m.run_id).isSome = true := by
  have key : ∀ s' : AppState, queueCovered s' = true →
      ∀ m s'', brpop s' = some (m, s'') →
        (lookupRun s'.db.index m.run_id).isSome = true := by
    intro s' hc m s'' hb
    have hq : s'.queue.getLast? = some m := by
      unfold brpop at hb
      cases hq' : s'.queue.getLast? with
      | none => rw [hq'] at hb; exact absurd hb (by simp)
      | some m0 =>
        rw [hq'] at hb
        have hm0 : m0 = m := congrArg Prod.fst (Option.some.inj hb)
        exact congrArg some hm0
    have hmem : m ∈ s'.queue := mem_of_getLast?_eq_some hq
    rw [queueCovered, List.all_eq_true] at hc
    exact hc m hmem
  intro s' hs'
  rw [queueCovered, List.all_eq_true] at h
  rw [run_pipeline_trace] at hs'
  simp only [if_true, List.mem_cons, List.mem_singleton, List.not_mem_nil, or_false] at hs'
  rcases hs' with rfl | rfl
  · have cov : queueCovered
        { s with db := insertIndexRow s.db req.tenant_id req.store_id run_id now } = true := by
      rw [queueCovered, List.all_eq_true]
      intro m hm
      exact isSome_lookupRun_append_left _ _ _ (h m hm)
    exact ⟨cov, key _ cov⟩
  · have cov : queueCovered
        (lpush { s with db := insertIndexRow s.db req.tenant_id req.store_id run_id now }
          ⟨run_id, req.tenant_id, req.store_id, req.product_data⟩) = true := by
      rw [queueCovered, List.all_eq_true]
      intro m hm
      rcases List.mem_cons.mp hm with rfl | hm'
      · exact isSome_lookupRun_append_self _ _ _
      · exact isSome_lookupRun_append_left _ _ _ (h m hm')
    exact ⟨cov, key _ cov⟩

/-- Witness instantiating C4_index_row_before_message from the empty state. -/
theorem C4_witness :
    queueCovered ⟨⟨[], []⟩, []⟩ = true ∧
    ∀ s' ∈ run_pipeline_trace true ⟨⟨[], []⟩, []⟩ ⟨"T1", "S1", "pd"⟩ "R1" 0,
      queueCovered s' = true ∧
      ∀ m s'', brpop s' = some (m, s'') →
        (lookupRun s'.db.index m.run_id).isSome = true :=
  ⟨by decide, C4_index_row_before_message ⟨⟨[], []⟩, []⟩ ⟨"T1", "S1", "pd"⟩ "R1" 0 (by decide)⟩

/-- Claim C5.  For a run with no modules and a NULL deploy_ready, a prefetch
raise drives the run to failed with the update timestamp touched, leaves zero
modules for it, and leaves deploy_ready NULL. -/
theorem C5_prefetch_error_fails_run (gates : List Gate) (db : DB) (job : JobMessage)
    (now : Nat) (row : RunRow)
    (h : getRun db job.run_id = some row)
    (hdr : row.deploy_ready = none)
    (hm : listModules db job.run_id = []) :
    getRun (process_pipeline_job gates Fault.prefetch db job now) job.run_id
      = some { row with status := Status.failed, updated_at := some now } ∧
    listModules (process_pipeline_job gates Fault.prefetch db job now) job.run_id = [] ∧
    (getRun (process_pipeline_job gates Fault.prefetch db job now) job.run_id).map
        RunRow.deploy_ready = some none := by
  refine ⟨?_, ?_, ?_⟩
  · simp [process_pipeline_job, getRun_updateStatus, h]
  · simp [process_pipeline_job, listModules_updateStatus, hm]
  · simp [process_pipeline_job, getRun_updateStatus, h, hdr]

/-- Witness instantiating C5_prefetch_error_fails_run at a fresh queued run. -/
theorem C5_witness :
    (getRun (⟨[("r1", ⟨"t1", "s1", Status.queued, none, 0, none⟩)], []⟩ : DB) "r1"
        = some ⟨"t1", "s1", Status.queued, none, 0, none⟩ ∧
      (⟨"t1", "s1", Status.queued, none, 0, none⟩ : RunRow).deploy_ready = none ∧
      listModules ⟨[("r1", ⟨"t1", "s1", Status.queued, none, 0, none⟩)], []⟩ "r1" = []) ∧
    (getRun (process_pipeline_job [] Fault.prefetch
        ⟨[("r1", ⟨"t1", "s1", Status.queued, none, 0, none⟩)], []⟩
        ⟨"r1", "t1", "s1", "pd"⟩ 1) "r1"
      = some ⟨"t1", "s1", Status.failed, none, 0, some 1⟩ ∧
      listModules (process_pipeline_job [] Fault.prefetch
        ⟨[("r1", ⟨"t1", "s1", Status.queued, none, 0, none⟩)], []⟩
        ⟨"r1", "t1", "s1", "pd"⟩ 1) "r1" = [] ∧
      (getRun (process_pipeline_job [] Fault.prefetch
          ⟨[("r1", ⟨"t1", "s1", Status.queued, none, 0, none⟩)], []⟩
          ⟨"r1", "t1", "s1", "pd"⟩ 1) "r1").map RunRow.deploy_ready = some none) :=
  ⟨⟨by decide, by decide, by decide⟩,
   C5_prefetch_error_fails_run [] ⟨[("r1", ⟨"t1", "s1", Status.queued, none, 0, none⟩)], []⟩
     ⟨"r1", "t1", "s1", "pd"⟩ 1 ⟨"t1", "s1", Status.queued, none, 0, none⟩
     (by decide) (by decide) (by decide)⟩

/-- Claim C6, amended.  The worker performs no run-existence check: for a job
message whose run id is absent from the index, the exception-free step leaves
the index unchanged (no row is created) yet executes all phases and writes
the three modules under the absent run id. -/
theorem C6_absent_run_still_processed (gates : List Gate) (db : DB) (job : JobMessage)
    (now : Nat)
    (h : getRun db job.run_id = none) :
    (process_pipeline_job gates Fault.ok db job now).index = db.index ∧
    listModules (process_pipeline_job gates Fault.ok db job now) job.run_id
      = listModules db job.run_id ++
        [("audit", ModuleData.audit 12 0),
         ("decision", ModuleData.decision (gatesDeployReady gates) (gatesReasons gates)),
         ("deployment",
           ModuleData.deployment (deployPath job.tenant_id job.store_id job.run_id))] := by
  refine ⟨?_, listModules_process_ok gates db job now⟩
  show (updateCompleted _ _ _ _).index = db.index
  rw [updateCompleted_absent _ _ _ _ (by simpa [getRun, updateStatus_absent db _ _ _ h] using h)]
  simp [process_pipeline_job, insertModule, updateStatus_absent db _ _ _ h]

/-- Claim C6, counterexample to the claim as stated: a job message for a run
id absent from the index still results in modules written for that id, so the
message is not dropped without effect. -/
theorem C6_counterexample :
    listModules (process_pipeline_job [] Fault.ok ⟨[], []⟩ ⟨"r1", "t1", "s1", "pd"⟩ 0) "r1"
      ≠ [] := by decide

/-- Witness instantiating C6_absent_run_still_processed on the empty index. -/
theorem C6_witness :
    getRun (⟨[], []⟩ : DB) "r1" = none ∧
    ((process_pipeline_job [] Fault.ok ⟨[], []⟩ ⟨"r1", "t1", "s1", "pd"⟩ 0).index
        = ([] : List (String × RunRow)) ∧
      listModules (process_pipeline_job [] Fault.ok ⟨[], []⟩ ⟨"r1", "t1", "s1", "pd"⟩ 0) "r1"
        = listModules (⟨[], []⟩ : DB) "r1" ++
          [("audit", ModuleData.audit 12 0),
           ("decision", ModuleData.decision (gatesDeployReady []) (gatesReasons [])),
           ("deployment", ModuleData.deployment (deployPath "t1" "s1" "r1"))]) :=
  ⟨by decide, C6_absent_run_still_processed [] ⟨[], []⟩ ⟨"r1", "t1", "s1", "pd"⟩ 0 (by decide)⟩

/-- Claim C7.  Every exception-free step completes the run and writes a
deployment module whose ready_to_deploy_path is the deterministic
concatenation of the s3 prefix with the tenant id, store id and run id of the
job. -/
theorem C7_deployment_path_deterministic (gates : List Gate) (db : DB) (job : JobMessage)
    (now : Nat) (row : RunRow)
    (h : getRun db job.run_id = some row) :
    (getRun (process_pipeline_job gates Fault.ok db job now) job.run_id).map RunRow.status
      = some Status.completed ∧
    ("deployment",
        ModuleData.deployment
          ("s3://aegis/" ++ job.tenant_id ++ "/" ++ job.store_id ++ "/" ++ job.run_id))
      ∈ listModules (process_pipeline_job gates Fault.ok db job now) job.run_id := by
  constructor
  · simp [process_pipeline_job, getRun_updateCompleted, getRun_insertModule,
      getRun_updateStatus, h]
  · rw [listModules_process_ok]
    simp [deployPath]

/-- Witness instantiating C7_deployment_path_deterministic at run R1 for
tenant T1 and store S1, yielding the literal scenario path. -/
theorem C7_witness :
    getRun (⟨[("R1", ⟨"T1", "S1", Status.queued, none, 0, none⟩)], []⟩ : DB) "R1"
      = some ⟨"T1", "S1", Status.queued, none, 0, none⟩ ∧
    ((getRun (process_pipeline_job [] Fault.ok
          ⟨[("R1", ⟨"T1", "S1", Status.queued, none, 0, none⟩)], []⟩
          ⟨"R1", "T1", "S1", "pd"⟩ 1) "R1").map RunRow.status = some Status.completed ∧
      ("deployment", ModuleData.deployment "s3://aegis/T1/S1/R1")
        ∈ listModules (process_pipeline_job [] Fault.ok
            ⟨[("R1", ⟨"T1", "S1", Status.queued, none, 0, none⟩)], []⟩
            ⟨"R1", "T1", "S1", "pd"⟩ 1) "R1") :=
  ⟨by decide,
   by
     exact C7_deployment_path_deterministic []
       ⟨[("R1", ⟨"T1", "S1", Status.queued, none, 0, none⟩)], []⟩
       ⟨"R1", "T1", "S1", "pd"⟩ 1 ⟨"T1", "S1", Status.queued, none, 0, none⟩ (by decide)⟩

/-- Claim C8.  With zero configured gates and an exception-free execution, the
run row ends completed with deploy_ready true stored in the index, and the
decision module records deploy_ready true with no reasons. -/
theorem C8_zero_gates_deploy_ready_true (db : DB) (job : JobMessage) (now : Nat)
    (row : RunRow)
    (h : getRun db job.run_id = some row) :
    getRun (process_pipeline_job [] Fault.ok db job now) job.run_id
      = some { row with status := Status.completed, deploy_ready := some true,
                        updated_at := some now } ∧
    ("decision", ModuleData.decision true [])
      ∈ listModules (process_pipeline_job [] Fault.ok db job now) job.run_id := by
  constructor
  · simp [process_pipeline_job, getRun_updateCompleted, getRun_insertModule,
      getRun_updateStatus, h, gatesDeployReady]
  · rw [listModules_process_ok]
    simp [gatesDeployReady, gatesReasons]

/-- Witness instantiating C8_zero_gates_deploy_ready_true at a fresh queued
run. -/
theorem C8_witness :
    getRun (⟨[("r1", ⟨"t1", "s1", Status.queued, none, 0, none⟩)], []⟩ : DB) "r1"
      = some ⟨"t1", "s1", Status.queued, none, 0, none⟩ ∧
    (getRun (process_pipeline_job [] Fault.ok
        ⟨[("r1", ⟨"t1", "s1", Status.queued, none, 0, none⟩)], []⟩
        ⟨"r1", "t1", "s1", "pd"⟩ 1) "r1"
      = some ⟨"t1", "s1", Status.completed, some true, 0, some 1⟩ ∧
      ("decision", ModuleData.decision true [])
        ∈ listModules (process_pipeline_job [] Fault.ok
            ⟨[("r1", ⟨"t1", "s1", Status.queued, none, 0, none⟩)], []⟩
            ⟨"r1", "t1", "s1", "pd"⟩ 1) "r1") :=
  ⟨by decide,
   by
     exact C8_zero_gates_deploy_ready_true
       ⟨[("r1", ⟨"t1", "s1", Status.queued, none, 0, none⟩)], []⟩
       ⟨"r1", "t1", "s1", "pd"⟩ 1 ⟨"t1", "s1", Status.queued, none, 0, none⟩ (by decide)⟩

/-- Claim C9.  The transition to processing is idempotent: applying it twice
in a row yields exactly the state of applying it once at the last timestamp,
and for a run present in the index the resulting status is processing; the
operation is total, so the second application cannot error. -/
theorem C9_transition_idempotent (db : DB) (r : String) (t1 t2 : Nat) (row : RunRow)
    (h : getRun db r = some row) :
    transitionToProcessing (transitionToProcessing db r t1) r t2
      = transitionToProcessing db r t2 ∧
    (getRun (transitionToProcessing (transitionToProcessing db r t1) r t2) r).map
        RunRow.status = some Status.processing := by
  have heq : transitionToProcessing (transitionToProcessing db r t1) r t2
      = transitionToProcessing db r t2 := by
    simp only [transitionToProcessing, updateStatus]
    rw [map_update_map_update db.index r
      (fun row => { row with status := Status.processing, updated_at := some t1 })
      (fun row => { row with status := Status.processing, updated_at := some t2 })]
  refine ⟨heq, ?_⟩
  rw [heq]
  simp [transitionToProcessing, getRun_updateStatus, h]

/-- Witness instantiating C9_transition_idempotent at a concrete queued run
with timestamps 1 and 2. -/
theorem C9_witness :
    getRun (⟨[("r1", ⟨"t1", "s1", Status.queued, none, 0, none⟩)], []⟩ : DB) "r1"
      = some ⟨"t1", "s1", Status.queued, none, 0, none⟩ ∧
    (transitionToProcessing
        (transitionToProcessing ⟨[("r1", ⟨"t1", "s1", Status.queued, none, 0, none⟩)], []⟩
          "r1" 1) "r1" 2
      = transitionToProcessing ⟨[("r1", ⟨"t1", "s1", Status.queued, none, 0, none⟩)], []⟩
          "r1" 2 ∧
      (getRun (transitionToProcessing
          (transitionToProcessing ⟨[("r1", ⟨"t1", "s1", Status.queued, none, 0, none⟩)], []⟩
            "r1" 1) "r1" 2) "r1").map RunRow.status = some Status.processing) :=
  ⟨by decide,
   C9_transition_idempotent ⟨[("r1", ⟨"t1", "s1", Status.queued, none, 0, none⟩)], []⟩
     "r1" 1 2 ⟨"t1", "s1", Status.queued, none, 0, none⟩ (by decide)⟩

/-- Claim C10.  With no Redis client configured, the enqueue endpoint still
inserts the queued index row and returns the run id with status queued, but
pushes nothing onto the queue, so the run is never delivered to a worker. -/
theorem C10_no_redis_row_without_message (s : AppState) (req : PipelineRequest)
    (run_id : String) (now : Nat)
    (hfresh : getRun s.db run_id = none) :
    (run_pipeline false s req run_id now).2 = (run_id, "queued") ∧
    (run_pipeline false s req run_id now).1.queue = s.queue ∧
    (getRun (run_pipeline false s req run_id now).1.db run_id).map RunRow.status
      = some Status.queued := by
  refine ⟨rfl, rfl, ?_⟩
  show (lookupRun (s.db.index ++ [(run_id, _)]) run_id).map RunRow.status = _
  rw [lookupRun_append_self_of_none _ _ _ hfresh]
  rfl

/-- Witness instantiating C10_no_redis_row_without_message from the empty
state. -/
theorem C10_witness :
    getRun (⟨⟨[], []⟩, []⟩ : AppState).db "R1" = none ∧
    ((run_pipeline false ⟨⟨[], []⟩, []⟩ ⟨"T1", "S1", "pd"⟩ "R1" 0).2 = ("R1", "queued") ∧
      (run_pipeline false ⟨⟨[], []⟩, []⟩ ⟨"T1", "S1", "pd"⟩ "R1" 0).1.queue
        = (⟨⟨[], []⟩, []⟩ : AppState).queue ∧
      (getRun (run_pipeline false ⟨⟨[], []⟩, []⟩ ⟨"T1", "S1", "pd"⟩ "R1" 0).1.db "R1").map
          RunRow.status = some Status.queued) :=
  ⟨by decide, C10_no_redis_row_without_message ⟨⟨[], []⟩, []⟩ ⟨"T1", "S1", "pd"⟩ "R1" 0 (by decide)⟩

end Aegis
